import Mathlib

/-!
Verification of the AI Voice backend (src/main.py, src/schemas.py):
a small HTTP service with voice-profile registration, text-to-speech
synthesis, job persistence and listing.

Shallow embedding conventions:
- The external collaborators (the gTTS engine, the document store behind
  the `database` module, the HTTP framework's request-body validation)
  are modelled by explicit outcome parameters: each handler takes the
  outcome the collaborator would produce (`Except` for fallible calls)
  and we quantify over those outcomes.
- Machine-level side effects are recorded in explicit effect records
  (how many TTS calls, whether a file was written, how many inserts,
  which document was inserted).
- An HTTP response is `Except (Nat × String) α`: `Except.error (code, msg)`
  models `HTTPException(status_code=code, detail=msg)`, and `Except.ok`
  models a normal 200 response.
-/

/-- `src/schemas.py` `Voice`: a validated voice profile.
(The URL-format check pydantic applies to `avatar_url` is orthogonal to the
claims and is not modelled; the field is kept as an optional string.) -/
structure Voice where
  name : String
  description : Option String
  language : String
  avatar_url : Option String
  samples : List String
deriving Repr, DecidableEq

/-- A raw request body for `POST /api/voices`: each schema field either
present (`some`) or absent (`none`). -/
structure RawVoice where
  name : Option String
  description : Option String
  language : Option String
  avatar_url : Option String
  samples : Option (List String)
deriving Repr, DecidableEq

/-- Pydantic validation of `Voice` (src/schemas.py lines 11-16):
`name` and `language` are required (`Field(...)`), all other fields are
optional; `samples` defaults to the empty list. No constraint beyond
presence is placed on `name` or `language` (in particular the empty
string is accepted). -/
def parseVoice (r : RawVoice) : Except String Voice :=
  match r.name with
  | none => Except.error "field required: name"
  | some n =>
      match r.language with
      | none => Except.error "field required: language"
      | some l =>
          Except.ok { name := n, description := r.description, language := l,
                      avatar_url := r.avatar_url,
                      samples := r.samples.getD [] }

/-- `src/schemas.py` `TTSJob`: a validated synthesis request body. -/
structure TTSJob where
  text : String
  voice_id : Option String
  language : String
  format : String
deriving Repr, DecidableEq

/-- A raw request body for `POST /api/tts`. -/
structure RawTTSJob where
  text : Option String
  voice_id : Option String
  language : Option String
  format : Option String
deriving Repr, DecidableEq

/-- Pydantic validation of `TTSJob` (src/schemas.py lines 18-22):
`text` is required with `min_length=1, max_length=2000`; `language`
defaults to `"en"`, `format` defaults to `"mp3"`, `voice_id` is optional. -/
def parseTTSJob (r : RawTTSJob) : Except String TTSJob :=
  match r.text with
  | none => Except.error "field required: text"
  | some t =>
      if t.length < 1 then
        Except.error "text: ensure this value has at least 1 characters"
      else if 2000 < t.length then
        Except.error "text: ensure this value has at most 2000 characters"
      else
        Except.ok { text := t, voice_id := r.voice_id,
                    language := r.language.getD "en",
                    format := r.format.getD "mp3" }

/-- Python `s or d` for strings: `d` when `s` is falsy (empty), else `s`. -/
def orDefault (s d : String) : String := if s = "" then d else s

/-- Python `str.strip()`: drop leading and trailing whitespace
(executable model: character-list based). -/
def pyStrip (s : String) : String :=
  String.mk
    (((s.data.dropWhile Char.isWhitespace).reverse.dropWhile
        Char.isWhitespace).reverse)

/-- A UTC clock reading as observed by `datetime.utcnow()`, at the
field granularity used by the `strftime` format in src/main.py line 154. -/
structure UTCTime where
  year : Nat
  month : Nat
  day : Nat
  hour : Nat
  minute : Nat
  second : Nat
  microsecond : Nat
deriving Repr, DecidableEq

/-- The character for decimal digit `d` (for `d < 10`). -/
def digitChar (d : Nat) : Char := Char.ofNat (48 + d)

/-- Zero-padded fixed-width decimal rendering of `n`, width `w`
(the effect of `%04d`/`%02d`/`%06d` in `strftime` for in-range fields). -/
def padChars (w n : Nat) : List Char :=
  (List.range w).map (fun i => digitChar (n / 10 ^ (w - 1 - i) % 10))

/-- `datetime.utcnow().strftime("%Y%m%d%H%M%S%f")` (src/main.py line 154):
4-digit year, 2-digit month/day/hour/minute/second, 6-digit microsecond. -/
def strftimeTs (t : UTCTime) : List Char :=
  padChars 4 t.year ++ padChars 2 t.month ++ padChars 2 t.day ++
  padChars 2 t.hour ++ padChars 2 t.minute ++ padChars 2 t.second ++
  padChars 6 t.microsecond

/-- ASCII lower-casing of one character (Python `str.lower` on the
ASCII range relevant to format tags). -/
def lowerChar (c : Char) : Char :=
  if 'A' ≤ c ∧ c ≤ 'Z' then Char.ofNat (c.toNat + 32) else c

/-- Python `str.lower` (executable model: character-wise lower-casing). -/
def strLower (s : String) : String := String.mk (s.data.map lowerChar)

/-- src/main.py line 155:
`ext = "mp3" if (job.format or "mp3").lower() == "mp3" else "mp3"`. -/
def ttsExt (fmt : String) : String :=
  if strLower (orDefault fmt "mp3") = "mp3" then "mp3" else "mp3"

/-- src/main.py line 156: `fname = f"tts_{ts}.{ext}"`. -/
def ttsFileName (t : UTCTime) (fmt : String) : String :=
  "tts_" ++ String.mk (strftimeTs t) ++ "." ++ ttsExt fmt

/-- The job document persisted by `create_document("ttsjob", doc)`
(src/main.py lines 169-176). -/
structure JobDoc where
  text : String
  voice_id : Option String
  language : String
  format : String
  status : String
  audio_url : String
deriving Repr, DecidableEq

/-- `TTSResponse` (src/main.py lines 31-39). -/
structure TTSResponse where
  id : String
  text : String
  voice_id : Option String
  language : String
  format : String
  status : String
  audio_url : Option String
  created_at : Option String
deriving Repr, DecidableEq

/-- The side effects of one `synthesize_speech` call: how many times the
external TTS capability was invoked, whether an audio file was written,
how many store inserts were attempted, and the document handed to the
store (if any). -/
structure SynthEffects where
  ttsCalls : Nat
  fileWritten : Bool
  insertCalls : Nat
  insertedDoc : Option JobDoc
deriving Repr, DecidableEq

/-- Environment of one `synthesize_speech` call: the clock reading used
for the filename, the outcome of the gTTS generate-and-save call, the
outcome `create_document("ttsjob", ·)` would produce, and the ISO string
`datetime.utcnow().isoformat()` produces at response time. -/
structure SynthEnv where
  time : UTCTime
  ttsResult : Except String Unit
  insertResult : Except String String
  nowIso : String

/-- `synthesize_speech` (src/main.py lines 145-191), given an already
validated `TTSJob` body. Returns the HTTP outcome and the effect trace. -/
def synthesize_speech (env : SynthEnv) (job : TTSJob) :
    Except (Nat × String) TTSResponse × SynthEffects :=
  let text := pyStrip job.text
  if text = "" then
    (Except.error (400, "Text is required"), ⟨0, false, 0, none⟩)
  else
    let fname := ttsFileName env.time job.format
    match env.ttsResult with
    | Except.error e =>
        (Except.error (500, "TTS error: " ++ e), ⟨1, false, 0, none⟩)
    | Except.ok _ =>
        let audio_url := "/generated/" ++ fname
        let doc : JobDoc :=
          { text := text, voice_id := job.voice_id,
            language := orDefault job.language "en",
            format := orDefault job.format "mp3",
            status := "completed", audio_url := audio_url }
        let job_id := match env.insertResult with
          | Except.ok i => i
          | Except.error _ => ""
        (Except.ok
          { id := job_id, text := text, voice_id := job.voice_id,
            language := orDefault job.language "en",
            format := orDefault job.format "mp3",
            status := "completed", audio_url := some audio_url,
            created_at := some env.nowIso },
         ⟨1, true, 1, some doc⟩)

/-- Modelled from the spec: the HTTP framework's request-body validation
layer is not part of src/; per the spec's error taxonomy
(`ValidationError` — malformed/missing required fields; surfaced to the
client as a 400 with a message), a body failing `TTSJob` validation is
answered with a client error 400 and the handler is never entered. -/
def post_api_tts (env : SynthEnv) (raw : RawTTSJob) :
    Except (Nat × String) TTSResponse × SynthEffects :=
  match parseTTSJob raw with
  | Except.error e => (Except.error (400, e), ⟨0, false, 0, none⟩)
  | Except.ok job => synthesize_speech env job

/-- `DEFAULT_VOICES` (src/main.py lines 89-114), read back through the
`List[VoiceSchema]` response model (which fills in the absent `samples`
with its empty-list default). -/
def DEFAULT_VOICES : List Voice :=
  [ { name := "Nova", description := some "Warm, clear American English voice",
      language := "en",
      avatar_url := some "https://images.unsplash.com/photo-1544005313-94ddf0286df2?q=80&w=400&auto=format&fit=crop",
      samples := [] },
    { name := "Aria", description := some "Natural British English voice",
      language := "en-GB",
      avatar_url := some "https://images.unsplash.com/photo-1547425260-76bcadfb4f2c?q=80&w=400&auto=format&fit=crop",
      samples := [] },
    { name := "Sora", description := some "Smooth Japanese voice",
      language := "ja",
      avatar_url := some "https://images.unsplash.com/photo-1545996124-0501ebae84d0?q=80&w=400&auto=format&fit=crop",
      samples := [] },
    { name := "Mateo", description := some "Crisp Spanish voice",
      language := "es",
      avatar_url := some "https://images.unsplash.com/photo-1527980965255-d3b416303d12?q=80&w=400&auto=format&fit=crop",
      samples := [] } ]

/-- `list_voices` (src/main.py lines 117-130). `dbUp` models `db is not None`;
`findResult` is the outcome `get_documents("voice")` would produce (store
records carried as `Voice` payloads: the handler strips the store's `_id`
key before returning). When the db handle is absent the store is never
queried and `voices` stays `[]`. Any raised exception yields the fallback
catalog; so does an empty result. -/
def list_voices (dbUp : Bool) (findResult : Except String (List Voice)) :
    List Voice :=
  match (if dbUp then findResult else Except.ok []) with
  | Except.error _ => DEFAULT_VOICES
  | Except.ok voices => if voices.isEmpty then DEFAULT_VOICES else voices

/-- `create_voice` (src/main.py lines 133-139) composed with the
request-body validation of `Voice` (validation failure answered as a
client error 400, modelled from the spec as for `post_api_tts`).
Returns the HTTP outcome and the number of store inserts attempted. -/
def create_voice (insertResult : Except String String) (raw : RawVoice) :
    Except (Nat × String) String × Nat :=
  match parseVoice raw with
  | Except.error e => (Except.error (400, e), 0)
  | Except.ok _ =>
      match insertResult with
      | Except.ok vid => (Except.ok vid, 1)
      | Except.error e => (Except.error (500, e), 1)

/-- A document of the `ttsjob` collection as the store returns it:
the store-assigned identifier (absent only if the document was inserted
without one) plus the job payload. -/
structure StoredJobDoc where
  oid : Option String
  doc : JobDoc
deriving Repr, DecidableEq

/-- A record as `GET /api/jobs` serializes it: the `_id` key renamed
to `id` when present. -/
structure JobRecord where
  id : Option String
  doc : JobDoc
deriving Repr, DecidableEq

/-- Modelled from the spec: `get_documents` lives in the `database`
module, which is not under src/. Per the spec's Persistence Gateway
contract, `find(collection, limit)` returns an ordered sequence of at
most `limit` stored documents (store order). -/
def get_documents (store : List StoredJobDoc) (limit : Nat) :
    List StoredJobDoc :=
  store.take limit

/-- The per-record serialization step of `list_jobs` (src/main.py
lines 199-201): `if "_id" in j: j["id"] = str(j.pop("_id"))`. -/
def exposeId (j : StoredJobDoc) : JobRecord :=
  match j.oid with
  | some i => { id := some i, doc := j.doc }
  | none => { id := none, doc := j.doc }

/-- `list_jobs` (src/main.py lines 194-204): `findResult` is the outcome
of `get_documents("ttsjob", limit=limit)`; any raised exception yields
the empty list. -/
def list_jobs (findResult : Except String (List StoredJobDoc)) :
    List JobRecord :=
  match findResult with
  | Except.ok jobs => jobs.map exposeId
  | Except.error _ => []

/-! ### Helper lemmas about the filename scheme -/

/-- Both branches of the extension normalization produce `"mp3"`. -/
lemma ttsExt_eq (fmt : String) : ttsExt fmt = "mp3" := by
  unfold ttsExt; exact ite_self _

/-- String append acts as list append on the character data. -/
lemma string_append_data (a b : String) : (a ++ b).data = a.data ++ b.data := rfl

/-- `padChars 6` spelled out digit by digit. -/
lemma padChars_six_eq (n : Nat) : padChars 6 n =
    [digitChar (n / 100000 % 10), digitChar (n / 10000 % 10),
     digitChar (n / 1000 % 10), digitChar (n / 100 % 10),
     digitChar (n / 10 % 10), digitChar (n / 1 % 10)] := rfl

/-- Digit characters of distinct digits are distinct. -/
lemma digitChar_bounded_inj :
    ∀ a, a < 10 → ∀ b, b < 10 → digitChar a = digitChar b → a = b := by decide

/-- `padChars 6` is injective below `10^6`. -/
lemma padChars_six_inj {n m : Nat} (hn : n < 1000000) (hm : m < 1000000)
    (h : padChars 6 n = padChars 6 m) : n = m := by
  rw [padChars_six_eq, padChars_six_eq] at h
  simp only [List.cons.injEq, and_true] at h
  obtain ⟨h5, h4, h3, h2, h1, h0⟩ := h
  have e5 := digitChar_bounded_inj _ (Nat.mod_lt _ (by decide)) _
    (Nat.mod_lt _ (by decide)) h5
  have e4 := digitChar_bounded_inj _ (Nat.mod_lt _ (by decide)) _
    (Nat.mod_lt _ (by decide)) h4
  have e3 := digitChar_bounded_inj _ (Nat.mod_lt _ (by decide)) _
    (Nat.mod_lt _ (by decide)) h3
  have e2 := digitChar_bounded_inj _ (Nat.mod_lt _ (by decide)) _
    (Nat.mod_lt _ (by decide)) h2
  have e1 := digitChar_bounded_inj _ (Nat.mod_lt _ (by decide)) _
    (Nat.mod_lt _ (by decide)) h1
  have e0 := digitChar_bounded_inj _ (Nat.mod_lt _ (by decide)) _
    (Nat.mod_lt _ (by decide)) h0
  omega

/-- Two clock readings that agree down to the second but differ in the
microsecond produce distinct `strftime` timestamp strings. -/
lemma strftimeTs_ne_of_micro_ne (t1 t2 : UTCTime)
    (hy : t1.year = t2.year) (hmo : t1.month = t2.month)
    (hd : t1.day = t2.day) (hh : t1.hour = t2.hour)
    (hmi : t1.minute = t2.minute) (hs : t1.second = t2.second)
    (hb1 : t1.microsecond < 1000000) (hb2 : t2.microsecond < 1000000)
    (hmic : t1.microsecond ≠ t2.microsecond) :
    strftimeTs t1 ≠ strftimeTs t2 := by
  intro h
  unfold strftimeTs at h
  rw [hy, hmo, hd, hh, hmi, hs] at h
  exact hmic (padChars_six_inj hb1 hb2 (List.append_cancel_left h))

/-- The generated filename is `tts_<timestamp>.mp3`, whatever the
requested format. -/
lemma ttsFileName_eq (t : UTCTime) (fmt : String) :
    ttsFileName t fmt = "tts_" ++ String.mk (strftimeTs t) ++ ".mp3" := by
  unfold ttsFileName
  rw [ttsExt_eq]
  apply String.ext
  simp only [string_append_data, List.append_assoc]
  rfl

/-- Same-second clock readings with distinct microseconds give distinct
filenames, whatever the requested formats. -/
lemma ttsFileName_ne_of_micro_ne (t1 t2 : UTCTime) (f1 f2 : String)
    (hy : t1.year = t2.year) (hmo : t1.month = t2.month)
    (hd : t1.day = t2.day) (hh : t1.hour = t2.hour)
    (hmi : t1.minute = t2.minute) (hs : t1.second = t2.second)
    (hb1 : t1.microsecond < 1000000) (hb2 : t2.microsecond < 1000000)
    (hmic : t1.microsecond ≠ t2.microsecond) :
    ttsFileName t1 f1 ≠ ttsFileName t2 f2 := by
  intro h
  rw [ttsFileName_eq, ttsFileName_eq] at h
  have hd' := congrArg String.data h
  simp only [string_append_data, List.append_assoc] at hd'
  have hcan := List.append_cancel_left hd'
  have hcan2 := List.append_cancel_right hcan
  exact strftimeTs_ne_of_micro_ne t1 t2 hy hmo hd hh hmi hs hb1 hb2 hmic hcan2

/-- Prepending a fixed prefix preserves distinctness of strings. -/
lemma string_prepend_ne (p a b : String) (h : a ≠ b) : p ++ a ≠ p ++ b := by
  intro hc
  apply h
  have hd := congrArg String.data hc
  simp only [string_append_data] at hd
  exact String.ext (List.append_cancel_left hd)

/-- Evaluation of `synthesize_speech` on the success path when the
store insert succeeds with id `i`. -/
lemma synthesize_ok_insOk (t : UTCTime) (i now : String) (job : TTSJob)
    (ht : pyStrip job.text ≠ "") :
    synthesize_speech ⟨t, Except.ok (), Except.ok i, now⟩ job =
      (Except.ok
        { id := i, text := pyStrip job.text, voice_id := job.voice_id,
          language := orDefault job.language "en",
          format := orDefault job.format "mp3",
          status := "completed",
          audio_url := some ("/generated/" ++ ttsFileName t job.format),
          created_at := some now },
       ⟨1, true, 1, some
        { text := pyStrip job.text, voice_id := job.voice_id,
          language := orDefault job.language "en",
          format := orDefault job.format "mp3",
          status := "completed",
          audio_url := "/generated/" ++ ttsFileName t job.format }⟩) := by
  simp only [synthesize_speech]
  rw [if_neg ht]

/-- Evaluation of `synthesize_speech` on the success path when the
store insert raises. -/
lemma synthesize_ok_insErr (t : UTCTime) (e now : String) (job : TTSJob)
    (ht : pyStrip job.text ≠ "") :
    synthesize_speech ⟨t, Except.ok (), Except.error e, now⟩ job =
      (Except.ok
        { id := "", text := pyStrip job.text, voice_id := job.voice_id,
          language := orDefault job.language "en",
          format := orDefault job.format "mp3",
          status := "completed",
          audio_url := some ("/generated/" ++ ttsFileName t job.format),
          created_at := some now },
       ⟨1, true, 1, some
        { text := pyStrip job.text, voice_id := job.voice_id,
          language := orDefault job.language "en",
          format := orDefault job.format "mp3",
          status := "completed",
          audio_url := "/generated/" ++ ttsFileName t job.format }⟩) := by
  simp only [synthesize_speech]
  rw [if_neg ht]

/-- Evaluation of `synthesize_speech` when the trimmed text is empty. -/
lemma synthesize_blank (env : SynthEnv) (job : TTSJob)
    (ht : pyStrip job.text = "") :
    synthesize_speech env job =
      (Except.error (400, "Text is required"), ⟨0, false, 0, none⟩) := by
  simp only [synthesize_speech]
  rw [if_pos ht]

/-- Evaluation of `synthesize_speech` when the external TTS capability
raises. -/
lemma synthesize_ttsErr (t : UTCTime) (e now : String)
    (ins : Except String String) (job : TTSJob)
    (ht : pyStrip job.text ≠ "") :
    synthesize_speech ⟨t, Except.error e, ins, now⟩ job =
      (Except.error (500, "TTS error: " ++ e), ⟨1, false, 0, none⟩) := by
  simp only [synthesize_speech]
  rw [if_neg ht]

example : ttsExt "wav" = "mp3" := rfl
example : orDefault "" "mp3" = "mp3" := rfl
example : orDefault "wav" "mp3" = "wav" := rfl
example : pyStrip "  Hello world " = "Hello world" := by decide
example : pyStrip " \t\n " = "" := by decide
example : padChars 6 111111 = ['1', '1', '1', '1', '1', '1'] := by decide
example : String.mk (strftimeTs ⟨2026, 10, 12, 3, 4, 5, 123456⟩)
    = "20261012030405123456" := by decide
example : ttsFileName ⟨2026, 10, 12, 3, 4, 5, 123456⟩ "wav"
    = "tts_20261012030405123456.mp3" := by decide
example : list_voices true (Except.ok []) = DEFAULT_VOICES := rfl
example : (create_voice (Except.ok "v1")
    ⟨some "", none, some "en", none, none⟩) = (Except.ok "v1", 1) := rfl

/-- Success path of `synthesize_speech` for an arbitrary insert outcome:
some job id makes the response the canonical success response. -/
lemma synthesize_ok_fst (t : UTCTime) (now : String)
    (ins : Except String String) (job : TTSJob)
    (ht : pyStrip job.text ≠ "") :
    ∃ jid, (synthesize_speech ⟨t, Except.ok (), ins, now⟩ job).1 =
      Except.ok
        { id := jid, text := pyStrip job.text, voice_id := job.voice_id,
          language := orDefault job.language "en",
          format := orDefault job.format "mp3",
          status := "completed",
          audio_url := some ("/generated/" ++ ttsFileName t job.format),
          created_at := some now } := by
  cases ins with
  | ok i => exact ⟨i, by rw [synthesize_ok_insOk t i now job ht]⟩
  | error e => exact ⟨"", by rw [synthesize_ok_insErr t e now job ht]⟩

/-! ### Claims -/

/-- C1: if TTS generation succeeds and the subsequent job-record insert
raises, `synthesize_speech` does not fail: it returns a 200 response with
the empty string as job id and the same valid `audio_url` (and all other
fields) it would have returned had the insert succeeded. -/
theorem c1_persist_failure_degrades (t : UTCTime) (now e i : String)
    (job : TTSJob) (ht : pyStrip job.text ≠ "") :
    ∃ resp respOk,
      (synthesize_speech ⟨t, Except.ok (), Except.error e, now⟩ job).1
        = Except.ok resp ∧
      (synthesize_speech ⟨t, Except.ok (), Except.ok i, now⟩ job).1
        = Except.ok respOk ∧
      resp.id = "" ∧
      resp.audio_url = some ("/generated/" ++ ttsFileName t job.format) ∧
      respOk.audio_url = resp.audio_url ∧
      resp = { respOk with id := "" } := by
  rw [synthesize_ok_insErr t e now job ht, synthesize_ok_insOk t i now job ht]
  exact ⟨_, _, rfl, rfl, rfl, rfl, rfl, rfl⟩

theorem c1_persist_failure_degrades_witness :
    pyStrip "Hello world" ≠ "" ∧
    (∃ resp respOk,
      (synthesize_speech
          ⟨⟨2026, 10, 12, 3, 4, 5, 111111⟩, Except.ok (),
           Except.error "db down", "2026-10-12T03:04:05"⟩
          ⟨"Hello world", none, "en", "mp3"⟩).1 = Except.ok resp ∧
      (synthesize_speech
          ⟨⟨2026, 10, 12, 3, 4, 5, 111111⟩, Except.ok (),
           Except.ok "job1", "2026-10-12T03:04:05"⟩
          ⟨"Hello world", none, "en", "mp3"⟩).1 = Except.ok respOk ∧
      resp.id = "" ∧
      resp.audio_url = some ("/generated/" ++
        ttsFileName ⟨2026, 10, 12, 3, 4, 5, 111111⟩ "mp3") ∧
      respOk.audio_url = resp.audio_url ∧
      resp = { respOk with id := "" }) :=
  ⟨by decide,
   c1_persist_failure_degrades ⟨2026, 10, 12, 3, 4, 5, 111111⟩
     "2026-10-12T03:04:05" "db down" "job1"
     ⟨"Hello world", none, "en", "mp3"⟩ (by decide)⟩

/-- C2: if the external TTS capability raises, `synthesize_speech` fails
end-to-end with a 500 carrying the underlying message; the capability was
invoked exactly once (no retry) and no store insert was attempted. -/
theorem c2_tts_failure_500_no_persist (t : UTCTime) (now e : String)
    (ins : Except String String) (job : TTSJob)
    (ht : pyStrip job.text ≠ "") :
    synthesize_speech ⟨t, Except.error e, ins, now⟩ job
      = (Except.error (500, "TTS error: " ++ e), ⟨1, false, 0, none⟩) :=
  synthesize_ttsErr t e now ins job ht

theorem c2_tts_failure_500_no_persist_witness :
    pyStrip "Hello world" ≠ "" ∧
    synthesize_speech
        ⟨⟨2026, 10, 12, 3, 4, 5, 111111⟩, Except.error "engine down",
         Except.ok "job1", "2026-10-12T03:04:05"⟩
        ⟨"Hello world", none, "en", "mp3"⟩
      = (Except.error (500, "TTS error: " ++ "engine down"),
         ⟨1, false, 0, none⟩) :=
  ⟨by decide,
   c2_tts_failure_500_no_persist ⟨2026, 10, 12, 3, 4, 5, 111111⟩
     "2026-10-12T03:04:05" "engine down" (Except.ok "job1")
     ⟨"Hello world", none, "en", "mp3"⟩ (by decide)⟩

/-- C3: a synthesis request whose text is present but empty or
whitespace-only is answered with a client error 400, the external TTS
capability is never invoked, no file is written and no insert is
attempted (effect trace `⟨0, false, 0, none⟩`). -/
theorem c3_blank_text_400_before_tts (env : SynthEnv) (raw : RawTTSJob)
    (s : String) (hs : raw.text = some s) (htrim : pyStrip s = "") :
    ∃ msg, post_api_tts env raw
      = (Except.error (400, msg), ⟨0, false, 0, none⟩) := by
  unfold post_api_tts parseTTSJob
  simp only [hs]
  by_cases h1 : s.length < 1
  · rw [if_pos h1]
    exact ⟨_, rfl⟩
  · rw [if_neg h1]
    by_cases h2 : 2000 < s.length
    · rw [if_pos h2]
      exact ⟨_, rfl⟩
    · rw [if_neg h2]
      exact ⟨_, synthesize_blank env _ htrim⟩

theorem c3_blank_text_400_before_tts_witness :
    pyStrip "   " = "" ∧
    (∃ msg, post_api_tts
        ⟨⟨2026, 10, 12, 3, 4, 5, 0⟩, Except.ok (), Except.ok "j", "iso"⟩
        ⟨some "   ", none, none, none⟩
      = (Except.error (400, msg), ⟨0, false, 0, none⟩)) :=
  ⟨by decide,
   c3_blank_text_400_before_tts
     ⟨⟨2026, 10, 12, 3, 4, 5, 0⟩, Except.ok (), Except.ok "j", "iso"⟩
     ⟨some "   ", none, none, none⟩ "   " rfl (by decide)⟩

/-- C4: two successful synthesize calls with identical input whose clock
readings agree down to the second but differ in the microsecond produce
distinct filenames and distinct `audio_url` values. -/
theorem c4_distinct_filenames_same_second (t1 t2 : UTCTime)
    (now1 now2 : String) (ins1 ins2 : Except String String) (job : TTSJob)
    (hy : t1.year = t2.year) (hmo : t1.month = t2.month)
    (hd : t1.day = t2.day) (hh : t1.hour = t2.hour)
    (hmi : t1.minute = t2.minute) (hsec : t1.second = t2.second)
    (hb1 : t1.microsecond < 1000000) (hb2 : t2.microsecond < 1000000)
    (hmic : t1.microsecond ≠ t2.microsecond)
    (ht : pyStrip job.text ≠ "") :
    ∃ r1 r2,
      (synthesize_speech ⟨t1, Except.ok (), ins1, now1⟩ job).1
        = Except.ok r1 ∧
      (synthesize_speech ⟨t2, Except.ok (), ins2, now2⟩ job).1
        = Except.ok r2 ∧
      ttsFileName t1 job.format ≠ ttsFileName t2 job.format ∧
      r1.audio_url ≠ r2.audio_url := by
  obtain ⟨j1, h1⟩ := synthesize_ok_fst t1 now1 ins1 job ht
  obtain ⟨j2, h2⟩ := synthesize_ok_fst t2 now2 ins2 job ht
  have hfname := ttsFileName_ne_of_micro_ne t1 t2 job.format job.format
    hy hmo hd hh hmi hsec hb1 hb2 hmic
  refine ⟨_, _, h1, h2, hfname, ?_⟩
  exact fun hc =>
    string_prepend_ne "/generated/" _ _ hfname (Option.some.inj hc)

theorem c4_distinct_filenames_same_second_witness :
    (111111 : Nat) ≠ 222222 ∧ pyStrip "Hello world" ≠ "" ∧
    (∃ r1 r2,
      (synthesize_speech
          ⟨⟨2026, 10, 12, 3, 4, 5, 111111⟩, Except.ok (), Except.ok "a",
           "iso1"⟩ ⟨"Hello world", none, "en", "mp3"⟩).1 = Except.ok r1 ∧
      (synthesize_speech
          ⟨⟨2026, 10, 12, 3, 4, 5, 222222⟩, Except.ok (), Except.ok "b",
           "iso2"⟩ ⟨"Hello world", none, "en", "mp3"⟩).1 = Except.ok r2 ∧
      ttsFileName ⟨2026, 10, 12, 3, 4, 5, 111111⟩ "mp3"
        ≠ ttsFileName ⟨2026, 10, 12, 3, 4, 5, 222222⟩ "mp3" ∧
      r1.audio_url ≠ r2.audio_url) :=
  ⟨by decide, by decide,
   c4_distinct_filenames_same_second
     ⟨2026, 10, 12, 3, 4, 5, 111111⟩ ⟨2026, 10, 12, 3, 4, 5, 222222⟩
     "iso1" "iso2" (Except.ok "a") (Except.ok "b")
     ⟨"Hello world", none, "en", "mp3"⟩
     rfl rfl rfl rfl rfl rfl (by decide) (by decide) (by decide) (by decide)⟩

/-- C5: whatever the requested format, the generated filename ends in
`.mp3` and the returned `audio_url` is `/generated/<stem>.mp3`. -/
theorem c5_extension_always_mp3 (t : UTCTime) (now : String)
    (ins : Except String String) (job : TTSJob)
    (ht : pyStrip job.text ≠ "") :
    ∃ resp stem,
      (synthesize_speech ⟨t, Except.ok (), ins, now⟩ job).1
        = Except.ok resp ∧
      ttsFileName t job.format = stem ++ ".mp3" ∧
      resp.audio_url = some ("/generated/" ++ (stem ++ ".mp3")) := by
  obtain ⟨jid, h1⟩ := synthesize_ok_fst t now ins job ht
  refine ⟨_, "tts_" ++ String.mk (strftimeTs t), h1,
    ttsFileName_eq t job.format, ?_⟩
  exact congrArg (fun x => some ("/generated/" ++ x))
    (ttsFileName_eq t job.format)

theorem c5_extension_always_mp3_witness :
    pyStrip "Hello world" ≠ "" ∧
    (∃ resp stem,
      (synthesize_speech
          ⟨⟨2026, 10, 12, 3, 4, 5, 111111⟩, Except.ok (), Except.ok "j",
           "iso"⟩ ⟨"Hello world", none, "en", "wav"⟩).1 = Except.ok resp ∧
      ttsFileName ⟨2026, 10, 12, 3, 4, 5, 111111⟩ "wav" = stem ++ ".mp3" ∧
      resp.audio_url = some ("/generated/" ++ (stem ++ ".mp3"))) :=
  ⟨by decide,
   c5_extension_always_mp3 ⟨2026, 10, 12, 3, 4, 5, 111111⟩ "iso"
     (Except.ok "j") ⟨"Hello world", none, "en", "wav"⟩ (by decide)⟩

/-- C6: the voice listing returns the fixed 4-entry fallback catalog
(pairwise-distinct names, descriptions, languages, avatar URLs) when the
db handle is absent, when the store raises, or when it holds no voice
records; and it returns the stored records themselves when the store is
reachable and holds at least one. -/
theorem c6_voice_listing_fallback (vs : List Voice) (e : String)
    (find : Except String (List Voice)) (hvs : vs ≠ []) :
    DEFAULT_VOICES.length = 4 ∧
    (DEFAULT_VOICES.map Voice.name).Nodup ∧
    (DEFAULT_VOICES.map Voice.description).Nodup ∧
    (DEFAULT_VOICES.map Voice.language).Nodup ∧
    (DEFAULT_VOICES.map Voice.avatar_url).Nodup ∧
    list_voices false find = DEFAULT_VOICES ∧
    list_voices true (Except.error e) = DEFAULT_VOICES ∧
    list_voices true (Except.ok []) = DEFAULT_VOICES ∧
    list_voices true (Except.ok vs) = vs := by
  refine ⟨by decide, by decide, by decide, by decide, by decide,
    rfl, rfl, rfl, ?_⟩
  cases vs with
  | nil => exact absurd rfl hvs
  | cons a l => rfl

theorem c6_voice_listing_fallback_witness :
    ([(⟨"Solo", none, "fr", none, []⟩ : Voice)] ≠ []) ∧
    (DEFAULT_VOICES.length = 4 ∧
     (DEFAULT_VOICES.map Voice.name).Nodup ∧
     (DEFAULT_VOICES.map Voice.description).Nodup ∧
     (DEFAULT_VOICES.map Voice.language).Nodup ∧
     (DEFAULT_VOICES.map Voice.avatar_url).Nodup ∧
     list_voices false (Except.ok []) = DEFAULT_VOICES ∧
     list_voices true (Except.error "store down") = DEFAULT_VOICES ∧
     list_voices true (Except.ok []) = DEFAULT_VOICES ∧
     list_voices true (Except.ok [⟨"Solo", none, "fr", none, []⟩])
       = [⟨"Solo", none, "fr", none, []⟩]) :=
  ⟨by decide,
   c6_voice_listing_fallback [⟨"Solo", none, "fr", none, []⟩]
     "store down" (Except.ok []) (by decide)⟩

/-- C7 counterexample: a Voice whose `name` is present but empty passes
validation unchallenged and the store insert is performed (`1` insert),
contradicting the claim that an empty name fails with a validation error
and no insert. -/
theorem c7_empty_name_accepted_cex :
    parseVoice ⟨some "", none, some "en", none, none⟩
      = Except.ok ⟨"", none, "en", none, []⟩ ∧
    create_voice (Except.ok "v1") ⟨some "", none, some "en", none, none⟩
      = (Except.ok "v1", 1) :=
  ⟨rfl, rfl⟩

/-- C7 amended: registering a Voice whose `name` or `language` is missing
fails with a validation error surfaced as a client error (400) and no
insert is performed; an empty `name` string, however, passes validation
(the schema does not require the name to be non-empty) and the insert is
performed. -/
theorem c7_missing_fields_rejected (ins : Except String String)
    (raw : RawVoice) (hmiss : raw.name = none ∨ raw.language = none) :
    (∃ m, create_voice ins raw = (Except.error (400, m), 0)) ∧
    (∀ i, create_voice (Except.ok i) ⟨some "", none, some "en", none, none⟩
      = (Except.ok i, 1)) := by
  constructor
  · unfold create_voice parseVoice
    rcases hmiss with h | h
    · rw [h]
      exact ⟨_, rfl⟩
    · rw [h]
      cases hn : raw.name with
      | none => exact ⟨_, rfl⟩
      | some a => exact ⟨_, rfl⟩
  · intro i
    rfl

theorem c7_missing_fields_rejected_witness :
    ((⟨none, none, some "en", none, none⟩ : RawVoice).name = none ∨
     (⟨none, none, some "en", none, none⟩ : RawVoice).language = none) ∧
    ((∃ m, create_voice (Except.ok "x") ⟨none, none, some "en", none, none⟩
        = (Except.error (400, m), 0)) ∧
     (∀ i, create_voice (Except.ok i) ⟨some "", none, some "en", none, none⟩
        = (Except.ok i, 1))) :=
  ⟨Or.inl rfl,
   c7_missing_fields_rejected (Except.ok "x")
     ⟨none, none, some "en", none, none⟩ (Or.inl rfl)⟩

/-- C8: when the trimmed text is non-empty and TTS generation succeeds,
the request is answered 200 with a body whose `status` is `"completed"`,
whose `audio_url` is `/generated/tts_<timestamp>.mp3`, whose `text`,
`voice_id`, `language` and `format` echo the (trimmed/defaulted) request
fields, and whose `created_at` is the response-time clock reading. -/
theorem c8_success_response_shape (t : UTCTime) (now : String)
    (ins : Except String String) (job : TTSJob)
    (ht : pyStrip job.text ≠ "") :
    ∃ resp,
      (synthesize_speech ⟨t, Except.ok (), ins, now⟩ job).1
        = Except.ok resp ∧
      resp.status = "completed" ∧
      resp.audio_url = some ("/generated/" ++
        ("tts_" ++ String.mk (strftimeTs t) ++ ".mp3")) ∧
      resp.text = pyStrip job.text ∧
      resp.voice_id = job.voice_id ∧
      resp.language = orDefault job.language "en" ∧
      resp.format = orDefault job.format "mp3" ∧
      resp.created_at = some now := by
  obtain ⟨jid, h1⟩ := synthesize_ok_fst t now ins job ht
  refine ⟨_, h1, rfl, ?_, rfl, rfl, rfl, rfl, rfl⟩
  exact congrArg (fun x => some ("/generated/" ++ x))
    (ttsFileName_eq t job.format)

theorem c8_success_response_shape_witness :
    pyStrip "Hello world" ≠ "" ∧
    (∃ resp,
      (synthesize_speech
          ⟨⟨2026, 10, 12, 3, 4, 5, 111111⟩, Except.ok (), Except.ok "job1",
           "2026-10-12T03:04:05"⟩ ⟨"Hello world", none, "en", "mp3"⟩).1
        = Except.ok resp ∧
      resp.status = "completed" ∧
      resp.audio_url = some ("/generated/" ++
        ("tts_" ++ String.mk (strftimeTs ⟨2026, 10, 12, 3, 4, 5, 111111⟩)
          ++ ".mp3")) ∧
      resp.text = pyStrip "Hello world" ∧
      resp.voice_id = none ∧
      resp.language = orDefault "en" "en" ∧
      resp.format = orDefault "mp3" "mp3" ∧
      resp.created_at = some "2026-10-12T03:04:05") :=
  ⟨by decide,
   c8_success_response_shape ⟨2026, 10, 12, 3, 4, 5, 111111⟩
     "2026-10-12T03:04:05" (Except.ok "job1")
     ⟨"Hello world", none, "en", "mp3"⟩ (by decide)⟩

/-- C9: the job listing over a find of at most `limit` stored documents
returns at most `limit` records; every returned record carries the
store-assigned identifier under `id`; and when the find raises, the
listing returns the empty sequence instead of propagating the error. -/
theorem c9_jobs_listing_bounded (store : List StoredJobDoc) (limit : Nat)
    (e : String) (j : StoredJobDoc) (hj : j ∈ get_documents store limit) :
    (list_jobs (Except.ok (get_documents store limit))).length ≤ limit ∧
    exposeId j ∈ list_jobs (Except.ok (get_documents store limit)) ∧
    (exposeId j).id = j.oid ∧
    list_jobs (Except.error e) = [] := by
  refine ⟨?_, ?_, ?_, rfl⟩
  · unfold list_jobs get_documents
    rw [List.length_map, List.length_take]
    exact Nat.min_le_left _ _
  · unfold list_jobs
    exact List.mem_map_of_mem exposeId hj
  · cases h : j.oid with
    | some i => simp [exposeId, h]
    | none => simp [exposeId, h]

theorem c9_jobs_listing_bounded_witness :
    ((⟨some "a1", ⟨"hi", none, "en", "mp3", "completed",
        "/generated/tts_x.mp3"⟩⟩ : StoredJobDoc)
      ∈ get_documents
          [⟨some "a1", ⟨"hi", none, "en", "mp3", "completed",
            "/generated/tts_x.mp3"⟩⟩] 20) ∧
    ((list_jobs (Except.ok (get_documents
        [⟨some "a1", ⟨"hi", none, "en", "mp3", "completed",
          "/generated/tts_x.mp3"⟩⟩] 20))).length ≤ 20 ∧
     exposeId ⟨some "a1", ⟨"hi", none, "en", "mp3", "completed",
        "/generated/tts_x.mp3"⟩⟩
       ∈ list_jobs (Except.ok (get_documents
          [⟨some "a1", ⟨"hi", none, "en", "mp3", "completed",
            "/generated/tts_x.mp3"⟩⟩] 20)) ∧
     (exposeId ⟨some "a1", ⟨"hi", none, "en", "mp3", "completed",
        "/generated/tts_x.mp3"⟩⟩).id = some "a1" ∧
     list_jobs (Except.error "store down") = []) :=
  ⟨by decide,
   c9_jobs_listing_bounded
     [⟨some "a1", ⟨"hi", none, "en", "mp3", "completed",
       "/generated/tts_x.mp3"⟩⟩] 20 "store down"
     ⟨some "a1", ⟨"hi", none, "en", "mp3", "completed",
       "/generated/tts_x.mp3"⟩⟩ (by decide)⟩

/-- C10 counterexample: a request that explicitly sends `format` as the
empty string (present, not absent) is persisted and answered with format
`"mp3"`, not with the requested value verbatim. -/
theorem c10_empty_format_not_verbatim_cex :
    (⟨some "hi", none, none, some ""⟩ : RawTTSJob).format = some "" ∧
    (post_api_tts
        ⟨⟨2026, 1, 1, 0, 0, 0, 0⟩, Except.ok (), Except.ok "j1", "iso"⟩
        ⟨some "hi", none, none, some ""⟩).1
      = Except.ok ⟨"j1", "hi", none, "en", "mp3", "completed",
          some "/generated/tts_20260101000000000000.mp3", some "iso"⟩ ∧
    ("" : String) ≠ "mp3" :=
  ⟨rfl, rfl, by decide⟩

/-- C10 amended: the persisted document and the response carry the
requested format verbatim when it is a non-empty string, and record
`"mp3"` when the client sent the empty string (or when the field was
absent, in which case validation already filled in `"mp3"`); both carry
the trimmed text; the artifact URL always ends in `.mp3`, so a recorded
non-mp3 format disagrees with the actual encoding of the artifact. -/
theorem c10_format_recorded_with_default (t : UTCTime) (now i : String)
    (job : TTSJob) (ht : pyStrip job.text ≠ "") :
    ∃ resp doc,
      (synthesize_speech ⟨t, Except.ok (), Except.ok i, now⟩ job).1
        = Except.ok resp ∧
      (synthesize_speech ⟨t, Except.ok (), Except.ok i, now⟩ job).2.insertedDoc
        = some doc ∧
      doc.format = orDefault job.format "mp3" ∧
      resp.format = orDefault job.format "mp3" ∧
      (job.format ≠ "" → doc.format = job.format) ∧
      (job.format = "" → doc.format = "mp3") ∧
      doc.text = pyStrip job.text ∧
      resp.text = pyStrip job.text ∧
      doc.audio_url = "/generated/" ++
        ("tts_" ++ String.mk (strftimeTs t) ++ ".mp3") ∧
      (orDefault job.format "mp3" ≠ "mp3" → doc.format ≠ "mp3") := by
  rw [synthesize_ok_insOk t i now job ht]
  refine ⟨_, _, rfl, rfl, rfl, rfl, ?_, ?_, rfl, rfl, ?_, fun h => h⟩
  · intro h
    unfold orDefault
    rw [if_neg h]
  · intro h
    unfold orDefault
    rw [if_pos h]
  · exact congrArg (fun x => "/generated/" ++ x) (ttsFileName_eq t job.format)

theorem c10_format_recorded_with_default_witness :
    pyStrip " Hello world " ≠ "" ∧
    (∃ resp doc,
      (synthesize_speech
          ⟨⟨2026, 10, 12, 3, 4, 5, 111111⟩, Except.ok (), Except.ok "j1",
           "iso"⟩ ⟨" Hello world ", none, "en", "wav"⟩).1
        = Except.ok resp ∧
      (synthesize_speech
          ⟨⟨2026, 10, 12, 3, 4, 5, 111111⟩, Except.ok (), Except.ok "j1",
           "iso"⟩ ⟨" Hello world ", none, "en", "wav"⟩).2.insertedDoc
        = some doc ∧
      doc.format = orDefault "wav" "mp3" ∧
      resp.format = orDefault "wav" "mp3" ∧
      (("wav" : String) ≠ "" → doc.format = "wav") ∧
      (("wav" : String) = "" → doc.format = "mp3") ∧
      doc.text = pyStrip " Hello world " ∧
      resp.text = pyStrip " Hello world " ∧
      doc.audio_url = "/generated/" ++
        ("tts_" ++ String.mk (strftimeTs ⟨2026, 10, 12, 3, 4, 5, 111111⟩)
          ++ ".mp3") ∧
      (orDefault "wav" "mp3" ≠ "mp3" → doc.format ≠ "mp3")) :=
  ⟨by decide,
   c10_format_recorded_with_default ⟨2026, 10, 12, 3, 4, 5, 111111⟩
     "iso" "j1" ⟨" Hello world ", none, "en", "wav"⟩ (by decide)⟩
